import Mathlib

/-
Verification of the renderer/glyph compatibility validators of the edit tools
in bokeh/models/tools.py (BoxEditTool, PointDrawTool, PolyDrawTool,
FreehandDrawTool, PolyEditTool).
-/

namespace Bokeh

/-- Modelled from the spec: the glyph class hierarchy (bokeh/models/glyphs.py,
imported at tools.py line 47 as XYGlyph, Rect, Patches, MultiLine) is not part
of the sources; the spec (sections 3 and 9) models a glyph as a closed tagged
variant: Rect, a member of the XYGlyph family, Patches, MultiLine, or another
kind not relevant to edit tools. -/
inductive GlyphFamily where
  | rect
  | xy
  | patches
  | multiLine
  | other
deriving DecidableEq

/-- Modelled from the spec: a glyph carries its concrete class name (what
Python reports as the name of the type of the glyph, used in diagnostic
messages) and its variant tag. -/
structure Glyph where
  typeName : String
  family : GlyphFamily
deriving DecidableEq

/-- Embeds the Python check `isinstance(glyph, Rect)` (tools.py line 1281). -/
def Glyph.isRect (g : Glyph) : Bool := g.family == GlyphFamily.rect

/-- Embeds the Python check `isinstance(glyph, XYGlyph)` (tools.py lines 1339
and 1411 and 1495). -/
def Glyph.isXYGlyph (g : Glyph) : Bool := g.family == GlyphFamily.xy

/-- Embeds the Python check `isinstance(glyph, (MultiLine, Patches))`
(tools.py lines 1401, 1450, 1503). -/
def Glyph.isMultiLineOrPatches (g : Glyph) : Bool :=
  g.family == GlyphFamily.multiLine || g.family == GlyphFamily.patches

/-- A renderer owning exactly one glyph; the validators of tools.py read only
`renderer.glyph` of each renderer. -/
structure GlyphRenderer where
  glyph : Glyph
deriving DecidableEq

/-- The `Dimensions` enum of `BoxEditTool.dimensions` (tools.py line 1261). -/
inductive Dimensions where
  | width
  | height
  | both
deriving DecidableEq

/-- The validation error codes from bokeh/core/validation/errors imported at
tools.py lines 38-41, under which each `@error(...)`-decorated check reports. -/
inductive ErrorCode where
  | INCOMPATIBLE_BOX_EDIT_RENDERER
  | INCOMPATIBLE_POINT_DRAW_RENDERER
  | INCOMPATIBLE_POLY_DRAW_RENDERER
  | INCOMPATIBLE_POLY_EDIT_RENDERER
  | INCOMPATIBLE_POLY_EDIT_VERTEX_RENDERER
deriving DecidableEq

/-- The common body of the five `_check_compatible_renderers` methods
(tools.py lines 1277-1285, 1335-1343, 1397-1405, 1446-1454, 1499-1507),
parameterized by the isinstance test each performs: collect, in order, the
renderers whose glyph fails the test; if any were collected, return the
comma-joined glyph type names followed by " glyph type(s) found.";
otherwise return no diagnostic (Python falls through returning None). -/
def check_renderers (allowed : Glyph → Bool) (renderers : List GlyphRenderer) :
    Option String :=
  let incompatible_renderers := renderers.filter (fun renderer => !allowed renderer.glyph)
  if incompatible_renderers.isEmpty then none
  else
    let glyph_types :=
      String.intercalate ", " (incompatible_renderers.map (fun renderer => renderer.glyph.typeName))
    some (glyph_types ++ " glyph type(s) found.")

/-- The glyph test shared by the two `_check_compatible_vertex_renderer`
methods (tools.py lines 1410-1413 and 1495-1497): if the glyph is not an
XYGlyph, return "glyph type NAME found.", else no diagnostic. -/
def vertex_glyph_check (glyph : Glyph) : Option String :=
  if !glyph.isXYGlyph then some ("glyph type " ++ glyph.typeName ++ " found.")
  else none

/-- `BoxEditTool` (tools.py line 1219): fields inherited from `EditTool`
(lines 1190-1217) plus `dimensions` and `num_objects`. -/
structure BoxEditTool where
  custom_tooltip : Option String
  empty_value : Option String
  custom_icon : Option String
  renderers : List GlyphRenderer
  dimensions : Dimensions
  num_objects : Int
deriving DecidableEq

/-- `PointDrawTool` (tools.py line 1288): `EditTool` fields plus `add`,
`drag`, `num_objects`. -/
structure PointDrawTool where
  custom_tooltip : Option String
  empty_value : Option String
  custom_icon : Option String
  renderers : List GlyphRenderer
  add : Bool
  drag : Bool
  num_objects : Int
deriving DecidableEq

/-- `PolyDrawTool` (tools.py line 1346): `EditTool` fields plus `drag`,
`num_objects`, and the optional `vertex_renderer` (Instance properties default
to None, modelled as `Option`). -/
structure PolyDrawTool where
  custom_tooltip : Option String
  empty_value : Option String
  custom_icon : Option String
  renderers : List GlyphRenderer
  drag : Bool
  num_objects : Int
  vertex_renderer : Option GlyphRenderer
deriving DecidableEq

/-- `FreehandDrawTool` (tools.py line 1415): `EditTool` fields plus
`num_objects`. -/
structure FreehandDrawTool where
  custom_tooltip : Option String
  empty_value : Option String
  custom_icon : Option String
  renderers : List GlyphRenderer
  num_objects : Int
deriving DecidableEq

/-- `PolyEditTool` (tools.py line 1456): `EditTool` fields plus the optional
`vertex_renderer`. -/
structure PolyEditTool where
  custom_tooltip : Option String
  empty_value : Option String
  custom_icon : Option String
  renderers : List GlyphRenderer
  vertex_renderer : Option GlyphRenderer
deriving DecidableEq

/-- `BoxEditTool._check_compatible_renderers` (tools.py lines 1277-1285):
offending glyphs are those that are not `Rect`. -/
def BoxEditTool.check_compatible_renderers (self : BoxEditTool) : Option String :=
  check_renderers Glyph.isRect self.renderers

/-- Error code of `BoxEditTool._check_compatible_renderers` (tools.py
line 1277). -/
def BoxEditTool.renderers_error_code : ErrorCode :=
  ErrorCode.INCOMPATIBLE_BOX_EDIT_RENDERER

/-- `PointDrawTool._check_compatible_renderers` (tools.py lines 1335-1343):
offending glyphs are those that are not `XYGlyph`. -/
def PointDrawTool.check_compatible_renderers (self : PointDrawTool) : Option String :=
  check_renderers Glyph.isXYGlyph self.renderers

/-- Error code of `PointDrawTool._check_compatible_renderers` (tools.py
line 1335). -/
def PointDrawTool.renderers_error_code : ErrorCode :=
  ErrorCode.INCOMPATIBLE_POINT_DRAW_RENDERER

/-- `PolyDrawTool._check_compatible_renderers` (tools.py lines 1397-1405):
offending glyphs are those that are neither `MultiLine` nor `Patches`. -/
def PolyDrawTool.check_compatible_renderers (self : PolyDrawTool) : Option String :=
  check_renderers Glyph.isMultiLineOrPatches self.renderers

/-- Error code of `PolyDrawTool._check_compatible_renderers` (tools.py
line 1397). -/
def PolyDrawTool.renderers_error_code : ErrorCode :=
  ErrorCode.INCOMPATIBLE_POLY_DRAW_RENDERER

/-- `PolyDrawTool._check_compatible_vertex_renderer` (tools.py lines
1407-1413): returns None when `vertex_renderer` is None, else checks the
single glyph against `XYGlyph`. -/
def PolyDrawTool.check_compatible_vertex_renderer (self : PolyDrawTool) :
    Option String :=
  match self.vertex_renderer with
  | none => none
  | some vr => vertex_glyph_check vr.glyph

/-- Error code of `PolyDrawTool._check_compatible_vertex_renderer` (tools.py
line 1407). -/
def PolyDrawTool.vertex_error_code : ErrorCode :=
  ErrorCode.INCOMPATIBLE_POLY_EDIT_VERTEX_RENDERER

/-- `FreehandDrawTool._check_compatible_renderers` (tools.py lines 1446-1454):
textually identical body to the PolyDrawTool check. -/
def FreehandDrawTool.check_compatible_renderers (self : FreehandDrawTool) :
    Option String :=
  check_renderers Glyph.isMultiLineOrPatches self.renderers

/-- Error code of `FreehandDrawTool._check_compatible_renderers` (tools.py
line 1446): it reuses INCOMPATIBLE_POLY_DRAW_RENDERER. -/
def FreehandDrawTool.renderers_error_code : ErrorCode :=
  ErrorCode.INCOMPATIBLE_POLY_DRAW_RENDERER

/-- `PolyEditTool._check_compatible_renderers` (tools.py lines 1499-1507). -/
def PolyEditTool.check_compatible_renderers (self : PolyEditTool) : Option String :=
  check_renderers Glyph.isMultiLineOrPatches self.renderers

/-- Error code of `PolyEditTool._check_compatible_renderers` (tools.py
line 1499). -/
def PolyEditTool.renderers_error_code : ErrorCode :=
  ErrorCode.INCOMPATIBLE_POLY_EDIT_RENDERER

/-- `PolyEditTool._check_compatible_vertex_renderer` (tools.py lines
1493-1497). Unlike the PolyDrawTool version it has no None guard: it
evaluates `self.vertex_renderer.glyph` directly, so when `vertex_renderer`
is unset (None, the default of an Instance property) Python raises
AttributeError; the raise is modelled as `Except.error`. -/
def PolyEditTool.check_compatible_vertex_renderer (self : PolyEditTool) :
    Except String (Option String) :=
  match self.vertex_renderer with
  | none => Except.error "AttributeError: NoneType object has no attribute glyph"
  | some vr => Except.ok (vertex_glyph_check vr.glyph)

/-- Error code of `PolyEditTool._check_compatible_vertex_renderer` (tools.py
line 1493). -/
def PolyEditTool.vertex_error_code : ErrorCode :=
  ErrorCode.INCOMPATIBLE_POLY_EDIT_VERTEX_RENDERER

/-- `charsPrefixEq sub l` holds when the character list `sub` starts `l`. -/
def charsPrefixEq : List Char → List Char → Bool
  | [], _ => true
  | _ :: _, [] => false
  | a :: as, b :: bs => a == b && charsPrefixEq as bs

/-- `charsContains sub l` holds when `sub` occurs contiguously in `l`. -/
def charsContains (sub : List Char) : List Char → Bool
  | [] => charsPrefixEq sub []
  | b :: bs => charsPrefixEq sub (b :: bs) || charsContains sub bs

/-- `strContains s sub` holds when `sub` is a contiguous substring of `s`,
the sense in which a diagnostic message "contains" a glyph type name. -/
def strContains (s sub : String) : Bool := charsContains sub.data s.data

theorem charsPrefixEq_append (l t : List Char) : charsPrefixEq l (l ++ t) = true := by
  induction l with
  | nil => rfl
  | cons a as ih => simp [charsPrefixEq, ih]

theorem charsContains_append_left (l t : List Char) : charsContains l (l ++ t) = true := by
  cases l with
  | nil =>
    cases t with
    | nil => rfl
    | cons b bs => simp [charsContains, charsPrefixEq]
  | cons a as =>
    show charsContains (a :: as) (a :: (as ++ t)) = true
    have h : charsPrefixEq (a :: as) (a :: (as ++ t)) = true := charsPrefixEq_append (a :: as) t
    simp [charsContains, h]

theorem strContains_append (s t : String) : strContains (s ++ t) s = true := by
  show charsContains s.data (s ++ t).data = true
  rw [String.data_append]
  exact charsContains_append_left s.data t.data

theorem check_renderers_eq_none (allowed : Glyph → Bool) (renderers : List GlyphRenderer)
    (h : ∀ r ∈ renderers, allowed r.glyph = true) :
    check_renderers allowed renderers = none := by
  have hf : renderers.filter (fun renderer => !allowed renderer.glyph) = [] := by
    rw [List.filter_eq_nil_iff]
    intro r hr
    simp [h r hr]
  simp [check_renderers, hf]

theorem check_renderers_eq_some (allowed : Glyph → Bool) (renderers : List GlyphRenderer)
    (h : ∃ r ∈ renderers, allowed r.glyph = false) :
    check_renderers allowed renderers =
      some (String.intercalate ", "
        ((renderers.filter (fun renderer => !allowed renderer.glyph)).map
          (fun renderer => renderer.glyph.typeName)) ++ " glyph type(s) found.") := by
  obtain ⟨r, hr, ha⟩ := h
  have hmem : r ∈ renderers.filter (fun renderer => !allowed renderer.glyph) :=
    List.mem_filter.mpr ⟨hr, by simp [ha]⟩
  have hie : (renderers.filter (fun renderer => !allowed renderer.glyph)).isEmpty = false :=
    List.isEmpty_eq_false.mpr (List.ne_nil_of_mem hmem)
  simp [check_renderers, hie]

/-- The renderer check factored through the list of glyphs alone; used to show
the checks depend on nothing but the glyphs. -/
def check_glyphs (allowed : Glyph → Bool) (glyphs : List Glyph) : Option String :=
  let incompatible := glyphs.filter (fun glyph => !allowed glyph)
  if incompatible.isEmpty then none
  else some (String.intercalate ", " (incompatible.map Glyph.typeName) ++ " glyph type(s) found.")

theorem filter_map_glyph (allowed : Glyph → Bool) (rs : List GlyphRenderer) :
    (rs.map GlyphRenderer.glyph).filter (fun glyph => !allowed glyph) =
      (rs.filter (fun renderer => !allowed renderer.glyph)).map GlyphRenderer.glyph := by
  induction rs with
  | nil => rfl
  | cons a as ih =>
    simp only [List.map_cons, List.filter_cons]
    cases ha : !allowed a.glyph with
    | false => simp [ha, ih]
    | true => simp [ha, ih]

theorem check_renderers_eq_check_glyphs (allowed : Glyph → Bool)
    (renderers : List GlyphRenderer) :
    check_renderers allowed renderers =
      check_glyphs allowed (renderers.map GlyphRenderer.glyph) := by
  unfold check_renderers check_glyphs
  rw [filter_map_glyph]
  cases h : renderers.filter (fun renderer => !allowed renderer.glyph) with
  | nil => rfl
  | cons a as =>
    simp only [List.map_map]
    rfl

theorem check_renderers_congr (allowed : Glyph → Bool) (rs1 rs2 : List GlyphRenderer)
    (h : rs1.map GlyphRenderer.glyph = rs2.map GlyphRenderer.glyph) :
    check_renderers allowed rs1 = check_renderers allowed rs2 := by
  rw [check_renderers_eq_check_glyphs, check_renderers_eq_check_glyphs, h]

theorem polydraw_vertex_check_congr (t1 t2 : PolyDrawTool)
    (h : t1.vertex_renderer.map GlyphRenderer.glyph =
         t2.vertex_renderer.map GlyphRenderer.glyph) :
    t1.check_compatible_vertex_renderer = t2.check_compatible_vertex_renderer := by
  unfold PolyDrawTool.check_compatible_vertex_renderer
  cases hv1 : t1.vertex_renderer with
  | none =>
    cases hv2 : t2.vertex_renderer with
    | none => rfl
    | some vr2 => rw [hv1, hv2] at h; simp at h
  | some vr1 =>
    cases hv2 : t2.vertex_renderer with
    | none => rw [hv1, hv2] at h; simp at h
    | some vr2 =>
      rw [hv1, hv2] at h
      simp at h
      show vertex_glyph_check vr1.glyph = vertex_glyph_check vr2.glyph
      rw [h]

theorem polyedit_vertex_check_congr (t1 t2 : PolyEditTool)
    (h : t1.vertex_renderer.map GlyphRenderer.glyph =
         t2.vertex_renderer.map GlyphRenderer.glyph) :
    t1.check_compatible_vertex_renderer = t2.check_compatible_vertex_renderer := by
  unfold PolyEditTool.check_compatible_vertex_renderer
  cases hv1 : t1.vertex_renderer with
  | none =>
    cases hv2 : t2.vertex_renderer with
    | none => rfl
    | some vr2 => rw [hv1, hv2] at h; simp at h
  | some vr1 =>
    cases hv2 : t2.vertex_renderer with
    | none => rw [hv1, hv2] at h; simp at h
    | some vr2 =>
      rw [hv1, hv2] at h
      simp at h
      show Except.ok (vertex_glyph_check vr1.glyph) = Except.ok (vertex_glyph_check vr2.glyph)
      rw [h]

/-- A sample Rect glyph. -/
def rectGlyph : Glyph := ⟨"Rect", GlyphFamily.rect⟩

/-- A sample XYGlyph-family glyph. -/
def circleGlyph : Glyph := ⟨"Circle", GlyphFamily.xy⟩

/-- A sample Patches glyph. -/
def patchesGlyph : Glyph := ⟨"Patches", GlyphFamily.patches⟩

/-- A sample MultiLine glyph. -/
def multiLineGlyph : Glyph := ⟨"MultiLine", GlyphFamily.multiLine⟩

/-- C1: for every edit tool kind, if every renderer in the tool's `renderers`
list carries a glyph whose variant tag is in that tool kind's fixed allowed
set (box-edit: Rect; point-draw: the XYGlyph family; poly-draw,
freehand-draw and poly-edit: Patches or MultiLine), then the
renderer-compatibility check returns no diagnostic. -/
theorem claim1_compatible_renderers_no_diagnostic
    (b : BoxEditTool) (p : PointDrawTool) (d : PolyDrawTool)
    (f : FreehandDrawTool) (e : PolyEditTool)
    (hb : ∀ r ∈ b.renderers, r.glyph.family = GlyphFamily.rect)
    (hp : ∀ r ∈ p.renderers, r.glyph.family = GlyphFamily.xy)
    (hd : ∀ r ∈ d.renderers,
      r.glyph.family = GlyphFamily.patches ∨ r.glyph.family = GlyphFamily.multiLine)
    (hf : ∀ r ∈ f.renderers,
      r.glyph.family = GlyphFamily.patches ∨ r.glyph.family = GlyphFamily.multiLine)
    (he : ∀ r ∈ e.renderers,
      r.glyph.family = GlyphFamily.patches ∨ r.glyph.family = GlyphFamily.multiLine) :
    b.check_compatible_renderers = none ∧
    p.check_compatible_renderers = none ∧
    d.check_compatible_renderers = none ∧
    f.check_compatible_renderers = none ∧
    e.check_compatible_renderers = none := by
  refine ⟨?_, ?_, ?_, ?_, ?_⟩
  · exact check_renderers_eq_none _ _ (fun r hr => by simp [Glyph.isRect, hb r hr])
  · exact check_renderers_eq_none _ _ (fun r hr => by simp [Glyph.isXYGlyph, hp r hr])
  · exact check_renderers_eq_none _ _ (fun r hr => by
      rcases hd r hr with h | h <;> simp [Glyph.isMultiLineOrPatches, h])
  · exact check_renderers_eq_none _ _ (fun r hr => by
      rcases hf r hr with h | h <;> simp [Glyph.isMultiLineOrPatches, h])
  · exact check_renderers_eq_none _ _ (fun r hr => by
      rcases he r hr with h | h <;> simp [Glyph.isMultiLineOrPatches, h])

/-- Witness for C1: one concrete tool of each kind with only allowed glyphs
passes its renderer-compatibility check. -/
theorem claim1_compatible_renderers_no_diagnostic_witness :
    (BoxEditTool.mk none none none [⟨rectGlyph⟩] Dimensions.both 0).check_compatible_renderers = none ∧
    (PointDrawTool.mk none none none [⟨circleGlyph⟩] true true 0).check_compatible_renderers = none ∧
    (PolyDrawTool.mk none none none [⟨patchesGlyph⟩] true 0 none).check_compatible_renderers = none ∧
    (FreehandDrawTool.mk none none none [⟨multiLineGlyph⟩] 0).check_compatible_renderers = none ∧
    (PolyEditTool.mk none none none [⟨patchesGlyph⟩, ⟨multiLineGlyph⟩] none).check_compatible_renderers = none :=
  claim1_compatible_renderers_no_diagnostic
    (BoxEditTool.mk none none none [⟨rectGlyph⟩] Dimensions.both 0)
    (PointDrawTool.mk none none none [⟨circleGlyph⟩] true true 0)
    (PolyDrawTool.mk none none none [⟨patchesGlyph⟩] true 0 none)
    (FreehandDrawTool.mk none none none [⟨multiLineGlyph⟩] 0)
    (PolyEditTool.mk none none none [⟨patchesGlyph⟩, ⟨multiLineGlyph⟩] none)
    (by decide) (by decide) (by decide) (by decide) (by decide)

/-- C2: a box-edit tool whose `renderers` list is exactly one renderer with a
non-Rect glyph gets a diagnostic, and the diagnostic's message contains that
glyph's type name. -/
theorem claim2_boxedit_single_incompatible
    (t : BoxEditTool) (r : GlyphRenderer)
    (hr : t.renderers = [r]) (hg : r.glyph.family ≠ GlyphFamily.rect) :
    ∃ m, t.check_compatible_renderers = some m ∧
      strContains m r.glyph.typeName = true := by
  have hb : Glyph.isRect r.glyph = false := by simp [Glyph.isRect, hg]
  refine ⟨r.glyph.typeName ++ " glyph type(s) found.", ?_, strContains_append _ _⟩
  show check_renderers Glyph.isRect t.renderers = _
  rw [hr]
  simp [check_renderers, hb, String.intercalate, String.intercalate.go]

/-- Witness for C2 at a box-edit tool holding a single Circle-glyph
renderer. -/
theorem claim2_boxedit_single_incompatible_witness :
    ∃ m, (BoxEditTool.mk none none none [⟨circleGlyph⟩] Dimensions.both 0).check_compatible_renderers = some m ∧
      strContains m (GlyphRenderer.mk circleGlyph).glyph.typeName = true :=
  claim2_boxedit_single_incompatible
    (BoxEditTool.mk none none none [⟨circleGlyph⟩] Dimensions.both 0)
    (GlyphRenderer.mk circleGlyph) rfl (by decide)

/-- C3: a poly-draw tool whose renderers hold a Patches glyph, a Circle glyph
and a MultiLine glyph, in that order, gets exactly one diagnostic, whose
message names "Circle" and names neither "Patches" nor "MultiLine". -/
theorem claim3_polydraw_reports_only_offender
    (t : PolyDrawTool) (r1 r2 r3 : GlyphRenderer)
    (h : t.renderers = [r1, r2, r3])
    (h1f : r1.glyph.family = GlyphFamily.patches) (h1n : r1.glyph.typeName = "Patches")
    (h2f : r2.glyph.family = GlyphFamily.xy) (h2n : r2.glyph.typeName = "Circle")
    (h3f : r3.glyph.family = GlyphFamily.multiLine) (h3n : r3.glyph.typeName = "MultiLine") :
    t.check_compatible_renderers = some "Circle glyph type(s) found." ∧
    strContains "Circle glyph type(s) found." "Circle" = true ∧
    strContains "Circle glyph type(s) found." "Patches" = false ∧
    strContains "Circle glyph type(s) found." "MultiLine" = false := by
  refine ⟨?_, by decide, by decide, by decide⟩
  show check_renderers Glyph.isMultiLineOrPatches t.renderers = _
  rw [h]
  simp [check_renderers, Glyph.isMultiLineOrPatches, h1f, h2f, h3f, h2n,
    String.intercalate, String.intercalate.go]

/-- Witness for C3 at a concrete poly-draw tool. -/
theorem claim3_polydraw_reports_only_offender_witness :
    (PolyDrawTool.mk none none none [⟨patchesGlyph⟩, ⟨circleGlyph⟩, ⟨multiLineGlyph⟩] true 0 none).check_compatible_renderers = some "Circle glyph type(s) found." ∧
    strContains "Circle glyph type(s) found." "Circle" = true ∧
    strContains "Circle glyph type(s) found." "Patches" = false ∧
    strContains "Circle glyph type(s) found." "MultiLine" = false :=
  claim3_polydraw_reports_only_offender
    (PolyDrawTool.mk none none none [⟨patchesGlyph⟩, ⟨circleGlyph⟩, ⟨multiLineGlyph⟩] true 0 none)
    ⟨patchesGlyph⟩ ⟨circleGlyph⟩ ⟨multiLineGlyph⟩
    rfl rfl rfl rfl rfl rfl rfl

/-- C4: the claim fails on the code. It asserts that both tools with a
`vertex_renderer` field return no diagnostic when the field is unset, but
`PolyEditTool._check_compatible_vertex_renderer` lacks the None guard that
the PolyDrawTool version has: evaluated at a poly-edit tool whose
`vertex_renderer` is unset (the default), it dereferences None and raises
AttributeError instead of returning no diagnostic. -/
theorem claim4_polyedit_vertex_check_raises_when_unset :
    (PolyEditTool.mk none none none [] none).check_compatible_vertex_renderer =
      Except.error "AttributeError: NoneType object has no attribute glyph" := rfl

/-- C5: the claim fails on the code. It asserts every compatibility check
always returns normally, but `PolyEditTool._check_compatible_vertex_renderer`
raises AttributeError on any poly-edit tool whose `vertex_renderer` is unset,
here one with a perfectly compatible Patches renderer in `renderers`. -/
theorem claim5_polyedit_vertex_check_not_total :
    (PolyEditTool.mk none none none [GlyphRenderer.mk patchesGlyph] none).check_compatible_vertex_renderer =
      Except.error "AttributeError: NoneType object has no attribute glyph" := rfl

/-- C6: for every edit tool kind, when at least one renderer carries an
incompatible glyph, the check returns a single diagnostic whose message is
the type names of all offending glyphs in input order, repetitions preserved,
joined by ", ", followed by the fixed suffix " glyph type(s) found.". -/
theorem claim6_diagnostic_message_format
    (b : BoxEditTool) (p : PointDrawTool) (d : PolyDrawTool)
    (f : FreehandDrawTool) (e : PolyEditTool)
    (hb : ∃ r ∈ b.renderers, Glyph.isRect r.glyph = false)
    (hp : ∃ r ∈ p.renderers, Glyph.isXYGlyph r.glyph = false)
    (hd : ∃ r ∈ d.renderers, Glyph.isMultiLineOrPatches r.glyph = false)
    (hf : ∃ r ∈ f.renderers, Glyph.isMultiLineOrPatches r.glyph = false)
    (he : ∃ r ∈ e.renderers, Glyph.isMultiLineOrPatches r.glyph = false) :
    b.check_compatible_renderers =
      some (String.intercalate ", "
        ((b.renderers.filter (fun r => !Glyph.isRect r.glyph)).map
          (fun r => r.glyph.typeName)) ++ " glyph type(s) found.") ∧
    p.check_compatible_renderers =
      some (String.intercalate ", "
        ((p.renderers.filter (fun r => !Glyph.isXYGlyph r.glyph)).map
          (fun r => r.glyph.typeName)) ++ " glyph type(s) found.") ∧
    d.check_compatible_renderers =
      some (String.intercalate ", "
        ((d.renderers.filter (fun r => !Glyph.isMultiLineOrPatches r.glyph)).map
          (fun r => r.glyph.typeName)) ++ " glyph type(s) found.") ∧
    f.check_compatible_renderers =
      some (String.intercalate ", "
        ((f.renderers.filter (fun r => !Glyph.isMultiLineOrPatches r.glyph)).map
          (fun r => r.glyph.typeName)) ++ " glyph type(s) found.") ∧
    e.check_compatible_renderers =
      some (String.intercalate ", "
        ((e.renderers.filter (fun r => !Glyph.isMultiLineOrPatches r.glyph)).map
          (fun r => r.glyph.typeName)) ++ " glyph type(s) found.") :=
  ⟨check_renderers_eq_some _ _ hb, check_renderers_eq_some _ _ hp,
   check_renderers_eq_some _ _ hd, check_renderers_eq_some _ _ hf,
   check_renderers_eq_some _ _ he⟩

/-- Witness for C6: concrete offending tools of each kind; the box-edit one
holds two Circle renderers, showing repetition is preserved. -/
theorem claim6_diagnostic_message_format_witness :
    (BoxEditTool.mk none none none [⟨circleGlyph⟩, ⟨circleGlyph⟩] Dimensions.both 0).check_compatible_renderers =
      some "Circle, Circle glyph type(s) found." ∧
    (PointDrawTool.mk none none none [⟨patchesGlyph⟩] true true 0).check_compatible_renderers =
      some "Patches glyph type(s) found." ∧
    (PolyDrawTool.mk none none none [⟨circleGlyph⟩] true 0 none).check_compatible_renderers =
      some "Circle glyph type(s) found." ∧
    (FreehandDrawTool.mk none none none [⟨rectGlyph⟩] 0).check_compatible_renderers =
      some "Rect glyph type(s) found." ∧
    (PolyEditTool.mk none none none [⟨circleGlyph⟩, ⟨rectGlyph⟩] none).check_compatible_renderers =
      some "Circle, Rect glyph type(s) found." := by
  have h := claim6_diagnostic_message_format
    (BoxEditTool.mk none none none [⟨circleGlyph⟩, ⟨circleGlyph⟩] Dimensions.both 0)
    (PointDrawTool.mk none none none [⟨patchesGlyph⟩] true true 0)
    (PolyDrawTool.mk none none none [⟨circleGlyph⟩] true 0 none)
    (FreehandDrawTool.mk none none none [⟨rectGlyph⟩] 0)
    (PolyEditTool.mk none none none [⟨circleGlyph⟩, ⟨rectGlyph⟩] none)
    (by decide) (by decide) (by decide) (by decide) (by decide)
  exact ⟨h.1.trans (by decide), h.2.1.trans (by decide), h.2.2.1.trans (by decide),
    h.2.2.2.1.trans (by decide), h.2.2.2.2.trans (by decide)⟩

/-- C7: for every edit tool kind, an empty `renderers` list yields no
diagnostic. -/
theorem claim7_empty_renderers_no_diagnostic
    (b : BoxEditTool) (p : PointDrawTool) (d : PolyDrawTool)
    (f : FreehandDrawTool) (e : PolyEditTool)
    (hb : b.renderers = []) (hp : p.renderers = []) (hd : d.renderers = [])
    (hf : f.renderers = []) (he : e.renderers = []) :
    b.check_compatible_renderers = none ∧
    p.check_compatible_renderers = none ∧
    d.check_compatible_renderers = none ∧
    f.check_compatible_renderers = none ∧
    e.check_compatible_renderers = none := by
  refine ⟨?_, ?_, ?_, ?_, ?_⟩
  · show check_renderers Glyph.isRect b.renderers = none
    rw [hb]
    rfl
  · show check_renderers Glyph.isXYGlyph p.renderers = none
    rw [hp]
    rfl
  · show check_renderers Glyph.isMultiLineOrPatches d.renderers = none
    rw [hd]
    rfl
  · show check_renderers Glyph.isMultiLineOrPatches f.renderers = none
    rw [hf]
    rfl
  · show check_renderers Glyph.isMultiLineOrPatches e.renderers = none
    rw [he]
    rfl

/-- Witness for C7: concrete tools of each kind with no renderers. -/
theorem claim7_empty_renderers_no_diagnostic_witness :
    (BoxEditTool.mk none none none [] Dimensions.both 0).check_compatible_renderers = none ∧
    (PointDrawTool.mk none none none [] true true 0).check_compatible_renderers = none ∧
    (PolyDrawTool.mk none none none [] true 0 none).check_compatible_renderers = none ∧
    (FreehandDrawTool.mk none none none [] 0).check_compatible_renderers = none ∧
    (PolyEditTool.mk none none none [] none).check_compatible_renderers = none :=
  claim7_empty_renderers_no_diagnostic
    (BoxEditTool.mk none none none [] Dimensions.both 0)
    (PointDrawTool.mk none none none [] true true 0)
    (PolyDrawTool.mk none none none [] true 0 none)
    (FreehandDrawTool.mk none none none [] 0)
    (PolyEditTool.mk none none none [] none)
    rfl rfl rfl rfl rfl

/-- C8: each compatibility check is a deterministic pure function of the tool
value, so running it twice on the same unmutated tool yields identical
results (for the poly-edit vertex check this includes raising the same
AttributeError both times). -/
theorem claim8_checks_deterministic
    (b : BoxEditTool) (p : PointDrawTool) (d : PolyDrawTool)
    (f : FreehandDrawTool) (e : PolyEditTool) :
    b.check_compatible_renderers = b.check_compatible_renderers ∧
    p.check_compatible_renderers = p.check_compatible_renderers ∧
    d.check_compatible_renderers = d.check_compatible_renderers ∧
    d.check_compatible_vertex_renderer = d.check_compatible_vertex_renderer ∧
    f.check_compatible_renderers = f.check_compatible_renderers ∧
    e.check_compatible_renderers = e.check_compatible_renderers ∧
    e.check_compatible_vertex_renderer = e.check_compatible_vertex_renderer :=
  ⟨rfl, rfl, rfl, rfl, rfl, rfl, rfl⟩

/-- C9: the freehand-draw renderer check is extensionally equal to the
poly-draw renderer check: on the same renderer list both return the same
result, and both report under the same error code
INCOMPATIBLE_POLY_DRAW_RENDERER. -/
theorem claim9_freehand_matches_polydraw
    (f : FreehandDrawTool) (d : PolyDrawTool)
    (h : f.renderers = d.renderers) :
    f.check_compatible_renderers = d.check_compatible_renderers ∧
    FreehandDrawTool.renderers_error_code = PolyDrawTool.renderers_error_code := by
  constructor
  · show check_renderers Glyph.isMultiLineOrPatches f.renderers =
        check_renderers Glyph.isMultiLineOrPatches d.renderers
    rw [h]
  · rfl

/-- Witness for C9 at a freehand-draw and a poly-draw tool sharing one
offending Circle renderer but differing in every other attribute. -/
theorem claim9_freehand_matches_polydraw_witness :
    (FreehandDrawTool.mk none none none [⟨circleGlyph⟩] 0).check_compatible_renderers =
      (PolyDrawTool.mk (some "tip") none none [⟨circleGlyph⟩] true 7 none).check_compatible_renderers ∧
    FreehandDrawTool.renderers_error_code = PolyDrawTool.renderers_error_code :=
  claim9_freehand_matches_polydraw
    (FreehandDrawTool.mk none none none [⟨circleGlyph⟩] 0)
    (PolyDrawTool.mk (some "tip") none none [⟨circleGlyph⟩] true 7 none)
    rfl

/-- C10: the checks read only the glyphs: two tools of the same kind whose
renderers carry pointwise identical glyphs (and, where the field exists, the
same `vertex_renderer` presence and glyph) get identical results from every
check, whatever their other attributes (num_objects, dimensions, empty_value,
add, drag, custom fields). -/
theorem claim10_checks_read_only_glyphs
    (b1 b2 : BoxEditTool) (p1 p2 : PointDrawTool) (d1 d2 : PolyDrawTool)
    (f1 f2 : FreehandDrawTool) (e1 e2 : PolyEditTool)
    (hb : b1.renderers.map GlyphRenderer.glyph = b2.renderers.map GlyphRenderer.glyph)
    (hp : p1.renderers.map GlyphRenderer.glyph = p2.renderers.map GlyphRenderer.glyph)
    (hd : d1.renderers.map GlyphRenderer.glyph = d2.renderers.map GlyphRenderer.glyph)
    (hdv : d1.vertex_renderer.map GlyphRenderer.glyph =
           d2.vertex_renderer.map GlyphRenderer.glyph)
    (hf : f1.renderers.map GlyphRenderer.glyph = f2.renderers.map GlyphRenderer.glyph)
    (he : e1.renderers.map GlyphRenderer.glyph = e2.renderers.map GlyphRenderer.glyph)
    (hev : e1.vertex_renderer.map GlyphRenderer.glyph =
           e2.vertex_renderer.map GlyphRenderer.glyph) :
    b1.check_compatible_renderers = b2.check_compatible_renderers ∧
    p1.check_compatible_renderers = p2.check_compatible_renderers ∧
    d1.check_compatible_renderers = d2.check_compatible_renderers ∧
    d1.check_compatible_vertex_renderer = d2.check_compatible_vertex_renderer ∧
    f1.check_compatible_renderers = f2.check_compatible_renderers ∧
    e1.check_compatible_renderers = e2.check_compatible_renderers ∧
    e1.check_compatible_vertex_renderer = e2.check_compatible_vertex_renderer := by
  refine ⟨?_, ?_, ?_, ?_, ?_, ?_, ?_⟩
  · exact check_renderers_congr _ _ _ hb
  · exact check_renderers_congr _ _ _ hp
  · exact check_renderers_congr _ _ _ hd
  · exact polydraw_vertex_check_congr _ _ hdv
  · exact check_renderers_congr _ _ _ hf
  · exact check_renderers_congr _ _ _ he
  · exact polyedit_vertex_check_congr _ _ hev

/-- Witness for C10: per kind, two tools sharing their glyphs but differing
in every other attribute. -/
theorem claim10_checks_read_only_glyphs_witness :
    (BoxEditTool.mk none none none [⟨circleGlyph⟩] Dimensions.both 0).check_compatible_renderers =
      (BoxEditTool.mk (some "t") (some "v") (some "i") [⟨circleGlyph⟩] Dimensions.width 5).check_compatible_renderers ∧
    (PointDrawTool.mk none none none [⟨circleGlyph⟩] true true 0).check_compatible_renderers =
      (PointDrawTool.mk (some "t") none none [⟨circleGlyph⟩] false false 9).check_compatible_renderers ∧
    (PolyDrawTool.mk none none none [⟨patchesGlyph⟩] true 0 (some ⟨patchesGlyph⟩)).check_compatible_renderers =
      (PolyDrawTool.mk (some "t") none none [⟨patchesGlyph⟩] false 3 (some ⟨patchesGlyph⟩)).check_compatible_renderers ∧
    (PolyDrawTool.mk none none none [⟨patchesGlyph⟩] true 0 (some ⟨patchesGlyph⟩)).check_compatible_vertex_renderer =
      (PolyDrawTool.mk (some "t") none none [⟨patchesGlyph⟩] false 3 (some ⟨patchesGlyph⟩)).check_compatible_vertex_renderer ∧
    (FreehandDrawTool.mk none none none [⟨multiLineGlyph⟩] 0).check_compatible_renderers =
      (FreehandDrawTool.mk (some "t") none none [⟨multiLineGlyph⟩] 4).check_compatible_renderers ∧
    (PolyEditTool.mk none none none [⟨multiLineGlyph⟩] (some ⟨circleGlyph⟩)).check_compatible_renderers =
      (PolyEditTool.mk (some "t") (some "v") none [⟨multiLineGlyph⟩] (some ⟨circleGlyph⟩)).check_compatible_renderers ∧
    (PolyEditTool.mk none none none [⟨multiLineGlyph⟩] (some ⟨circleGlyph⟩)).check_compatible_vertex_renderer =
      (PolyEditTool.mk (some "t") (some "v") none [⟨multiLineGlyph⟩] (some ⟨circleGlyph⟩)).check_compatible_vertex_renderer :=
  claim10_checks_read_only_glyphs
    (BoxEditTool.mk none none none [⟨circleGlyph⟩] Dimensions.both 0)
    (BoxEditTool.mk (some "t") (some "v") (some "i") [⟨circleGlyph⟩] Dimensions.width 5)
    (PointDrawTool.mk none none none [⟨circleGlyph⟩] true true 0)
    (PointDrawTool.mk (some "t") none none [⟨circleGlyph⟩] false false 9)
    (PolyDrawTool.mk none none none [⟨patchesGlyph⟩] true 0 (some ⟨patchesGlyph⟩))
    (PolyDrawTool.mk (some "t") none none [⟨patchesGlyph⟩] false 3 (some ⟨patchesGlyph⟩))
    (FreehandDrawTool.mk none none none [⟨multiLineGlyph⟩] 0)
    (FreehandDrawTool.mk (some "t") none none [⟨multiLineGlyph⟩] 4)
    (PolyEditTool.mk none none none [⟨multiLineGlyph⟩] (some ⟨circleGlyph⟩))
    (PolyEditTool.mk (some "t") (some "v") none [⟨multiLineGlyph⟩] (some ⟨circleGlyph⟩))
    rfl rfl rfl rfl rfl rfl rfl

end Bokeh
